import Mathlib

/-!
Shallow embedding of the instrument-creation and measurement-resolution core
of the opentelemetry-rust metrics SDK (opentelemetry-sdk/src/metrics/meter.rs)
and of the log-SDK error conversions (opentelemetry-sdk/src/logs/error.rs).

Rust strings are modelled as `List Char` (a list of Unicode scalar values);
`str::len`, which counts UTF-8 bytes, is modelled by `utf8Len`.
Fallible Rust functions returning `Result` are modelled with `Except`.
-/

set_option maxRecDepth 100000

namespace OtelSdk

instance {ε α : Type} [DecidableEq ε] [DecidableEq α] : DecidableEq (Except ε α) := fun x y =>
  match x, y with
  | .ok a, .ok b =>
    if h : a = b then .isTrue (by rw [h]) else .isFalse (by intro hc; cases hc; exact h rfl)
  | .ok _, .error _ => .isFalse (by intro hc; cases hc)
  | .error _, .ok _ => .isFalse (by intro hc; cases hc)
  | .error e, .error f =>
    if h : e = f then .isTrue (by rw [h]) else .isFalse (by intro hc; cases hc; exact h rfl)

/-- Byte count of the UTF-8 encoding of one Unicode scalar value,
matching the length that Rust `str::len` adds per `char`. -/
def utf8CharLen (c : Char) : Nat :=
  if c.toNat < 0x80 then 1
  else if c.toNat < 0x800 then 2
  else if c.toNat < 0x10000 then 3
  else 4

/-- UTF-8 byte length of a string, the Rust `str::len`. -/
def utf8Len (s : List Char) : Nat := (s.map utf8CharLen).sum

/-- Rust `char::is_ascii_alphabetic`. -/
def isAsciiAlphabetic (c : Char) : Bool :=
  (0x41 ≤ c.toNat && c.toNat ≤ 0x5A) || (0x61 ≤ c.toNat && c.toNat ≤ 0x7A)

/-- Rust `char::is_ascii_digit`. -/
def isAsciiDigit (c : Char) : Bool :=
  0x30 ≤ c.toNat && c.toNat ≤ 0x39

/-- Rust `char::is_ascii_alphanumeric`. -/
def isAsciiAlphanumeric (c : Char) : Bool :=
  isAsciiAlphabetic c || isAsciiDigit c

/-- Rust `char::is_ascii`. -/
def isAscii (c : Char) : Bool := c.toNat ≤ 0x7F

/-- Rust `str::starts_with` applied to a `char` predicate: true iff the string
is non-empty and its first character satisfies the predicate. -/
def starts_with (s : List Char) (p : Char → Bool) : Bool :=
  match s with
  | [] => false
  | c :: _ => p c

/-- Rust `INSTRUMENT_NAME_MAX_LENGTH` from meter.rs. -/
def INSTRUMENT_NAME_MAX_LENGTH : Nat := 255

/-- Rust `INSTRUMENT_UNIT_NAME_MAX_LENGTH` from meter.rs. -/
def INSTRUMENT_UNIT_NAME_MAX_LENGTH : Nat := 63

/-- Rust `INSTRUMENT_NAME_ALLOWED_NON_ALPHANUMERIC_CHARS` from meter.rs. -/
def INSTRUMENT_NAME_ALLOWED_NON_ALPHANUMERIC_CHARS : List Char :=
  ['_', '.', '-', '/']

/-- The fixed diagnostic strings of meter.rs, one constructor per `&'static str`
constant (`INSTRUMENT_NAME_EMPTY`, `INSTRUMENT_NAME_LENGTH`,
`INSTRUMENT_NAME_INVALID_CHAR`, `INSTRUMENT_NAME_FIRST_ALPHABETIC`,
`INSTRUMENT_UNIT_LENGTH`, `INSTRUMENT_UNIT_INVALID_CHAR`). -/
inductive Diagnostic where
  | INSTRUMENT_NAME_EMPTY
  | INSTRUMENT_NAME_LENGTH
  | INSTRUMENT_NAME_INVALID_CHAR
  | INSTRUMENT_NAME_FIRST_ALPHABETIC
  | INSTRUMENT_UNIT_LENGTH
  | INSTRUMENT_UNIT_INVALID_CHAR
deriving DecidableEq, Repr

/-- The `opentelemetry::metrics::MetricsError` variants used by meter.rs. -/
inductive MetricsError where
  | InvalidInstrumentConfiguration (msg : Diagnostic)
deriving DecidableEq, Repr

/-- Rust `validate_instrument_name` from meter.rs: empty check, then UTF-8 byte
length check against 255, then first-character check, then allowed-character
check; first failure wins. -/
def validate_instrument_name (name : List Char) : Except MetricsError Unit :=
  if name.isEmpty then
    .error (.InvalidInstrumentConfiguration .INSTRUMENT_NAME_EMPTY)
  else if utf8Len name > INSTRUMENT_NAME_MAX_LENGTH then
    .error (.InvalidInstrumentConfiguration .INSTRUMENT_NAME_LENGTH)
  else if starts_with name (fun c => !(isAsciiAlphabetic c)) then
    .error (.InvalidInstrumentConfiguration .INSTRUMENT_NAME_FIRST_ALPHABETIC)
  else if name.any (fun c =>
      !(isAsciiAlphanumeric c) &&
      !(INSTRUMENT_NAME_ALLOWED_NON_ALPHANUMERIC_CHARS.contains c)) then
    .error (.InvalidInstrumentConfiguration .INSTRUMENT_NAME_INVALID_CHAR)
  else
    .ok ()

/-- Rust `validate_instrument_unit` from meter.rs: an absent unit is valid; a
present unit is checked for UTF-8 byte length against 63, then for non-ASCII
characters. -/
def validate_instrument_unit (unit : Option (List Char)) : Except MetricsError Unit :=
  match unit with
  | some u =>
    if utf8Len u > INSTRUMENT_UNIT_NAME_MAX_LENGTH then
      .error (.InvalidInstrumentConfiguration .INSTRUMENT_UNIT_LENGTH)
    else if u.any (fun c => !(isAscii c)) then
      .error (.InvalidInstrumentConfiguration .INSTRUMENT_UNIT_INVALID_CHAR)
    else
      .ok ()
  | none => .ok ()

/-- The chained validation `validate_instrument_name(name).and_then(|_|
validate_instrument_unit(unit))` inside `validate_instrument_config`. -/
def validate_combined (name : List Char) (unit : Option (List Char)) :
    Except MetricsError Unit :=
  (validate_instrument_name name).bind (fun _ => validate_instrument_unit unit)

/-- Rust `InstrumentValidationPolicy` from meter.rs. -/
inductive InstrumentValidationPolicy where
  | HandleGlobalAndIgnore
  | Strict
deriving DecidableEq, Repr

/-- Outcome of `validate_instrument_config`: the returned `Result`, plus the
list of errors handed to the process-wide handler `global::handle_error`
(the call trace of the handler, in order). -/
structure ValidateResult where
  result : Except MetricsError Unit
  reported : List MetricsError
deriving DecidableEq, Repr

/-- Rust `validate_instrument_config` from meter.rs: on a validation error, the
`HandleGlobalAndIgnore` policy hands the error to `global::handle_error` once
and returns Ok; the `Strict` policy returns the error. -/
def validate_instrument_config (name : List Char) (unit : Option (List Char))
    (policy : InstrumentValidationPolicy) : ValidateResult :=
  match validate_combined name unit with
  | .ok _ => ⟨.ok (), []⟩
  | .error err =>
    match policy with
    | .HandleGlobalAndIgnore => ⟨.ok (), [err]⟩
    | .Strict => ⟨.error err, []⟩

/-- Instrumentation `Scope` (crate::instrumentation::Scope); only its identity
matters to meter.rs, which stores and copies it into descriptors. -/
structure Scope where
  name : List Char
deriving DecidableEq, Repr

/-- Rust `InstrumentKind` from metrics/instrument.rs, as used by meter.rs. -/
inductive InstrumentKind where
  | Counter
  | UpDownCounter
  | Gauge
  | Histogram
  | ObservableCounter
  | ObservableUpDownCounter
  | ObservableGauge
deriving DecidableEq, Repr

/-- The `Instrument` descriptor built by `InstrumentResolver::measures`:
name, description and unit defaulted to empty, the kind, and the owning
scope. -/
structure Instrument where
  name : List Char
  description : List Char
  unit : List Char
  kind : Option InstrumentKind
  scope : Scope
deriving DecidableEq, Repr

/-- Rust `ResolvedMeasures` wrapping the sink list returned by the resolver; the
sink type is abstract (`σ` stands for `Arc<dyn internal::Measure<T>>`). -/
structure ResolvedMeasures (σ : Type) where
  measures : List σ
deriving DecidableEq, Repr

/-- Rust `Counter::new(Arc::new(i))`: the synchronous counter handle wrapping its
resolved measures. -/
structure Counter (σ : Type) where
  inner : ResolvedMeasures σ
deriving DecidableEq, Repr

/-- Rust `UpDownCounter::new(Arc::new(i))`. -/
structure UpDownCounter (σ : Type) where
  inner : ResolvedMeasures σ
deriving DecidableEq, Repr

/-- Rust `Gauge::new(Arc::new(i))`. -/
structure Gauge (σ : Type) where
  inner : ResolvedMeasures σ
deriving DecidableEq, Repr

/-- Rust `Histogram::new(Arc::new(i))`. -/
structure Histogram (σ : Type) where
  inner : ResolvedMeasures σ
deriving DecidableEq, Repr

/-- Rust `Observable::new(ms)`: the shared observable instrument holding the
non-empty sink list. -/
structure Observable (σ : Type) where
  measures : List σ
deriving DecidableEq, Repr

/-- The `Arc<dyn AsyncInstrument>` stored inside an observable handle:
either `NoopAsyncInstrument::new()` or a shared `Observable`. -/
inductive AsyncInstrument (σ : Type) where
  | noop
  | observable (o : Observable σ)
deriving DecidableEq, Repr

/-- Rust `ObservableCounter::new(...)`. -/
structure ObservableCounter (σ : Type) where
  inner : AsyncInstrument σ
deriving DecidableEq, Repr

/-- Rust `ObservableUpDownCounter::new(...)`. -/
structure ObservableUpDownCounter (σ : Type) where
  inner : AsyncInstrument σ
deriving DecidableEq, Repr

/-- Rust `ObservableGauge::new(...)`. -/
structure ObservableGauge (σ : Type) where
  inner : AsyncInstrument σ
deriving DecidableEq, Repr

/-- A per-numeric-type `Resolver<T>` boundary as meter.rs consumes it:
`Resolver::measures(inst)` returns `Result<Vec<Arc<dyn Measure<T>>>>`. -/
def ResolverFn (σ : Type) : Type := Instrument → Except MetricsError (List σ)

/-- Rust `SdkMeter`: scope, the three per-numeric-type resolvers (`u64`, `i64`,
`f64` sink types `σu`, `σi`, `σf`), and the validation policy. Callback
registration with `Pipelines::register_callback` is tracked in each call's
effect log rather than as hidden state. -/
structure SdkMeter (σu σi σf : Type) where
  scope : Scope
  u64_resolver : ResolverFn σu
  i64_resolver : ResolverFn σi
  f64_resolver : ResolverFn σf
  validation_policy : InstrumentValidationPolicy

/-- Rust `InstrumentResolver::measures`: builds the `Instrument` descriptor
(defaulting description and unit) and hands it to the resolver. Returns the
resolver's answer together with the list of descriptors handed to the
resolver during the call (here always exactly one). -/
def InstrumentResolver.measures {σ : Type} (scope : Scope) (resolve : ResolverFn σ)
    (kind : InstrumentKind) (name : List Char)
    (description unit : Option (List Char)) :
    Except MetricsError (List σ) × List Instrument :=
  let inst : Instrument :=
    { name := name
      description := description.getD []
      unit := unit.getD []
      kind := some kind
      scope := scope }
  (resolve inst, [inst])

/-- Rust `InstrumentResolver::lookup`: wraps the resolved sink list in
`ResolvedMeasures`, with no special case for an empty list. -/
def InstrumentResolver.lookup {σ : Type} (scope : Scope) (resolve : ResolverFn σ)
    (kind : InstrumentKind) (name : List Char)
    (description unit : Option (List Char)) :
    Except MetricsError (ResolvedMeasures σ) × List Instrument :=
  match InstrumentResolver.measures scope resolve kind name description unit with
  | (.error e, log) => (.error e, log)
  | (.ok aggregators, log) => (.ok ⟨aggregators⟩, log)

/-- Observable effect log entry: a closure registered with
`Pipelines::register_callback` is `move || callback(cb_inst.as_ref())`,
recorded as the pair of the user callback and the shared `Observable` it is
bound to. -/
abbrev RegisteredCallback (Cb σ : Type) : Type := Cb × Observable σ

/-- Outcome of a synchronous instrument-creation call: the returned
`Result` handle, the errors handed to `global::handle_error`, and the
descriptors handed to `Resolver::measures`. -/
structure SyncCall (H : Type) where
  result : Except MetricsError H
  reported : List MetricsError
  resolved : List Instrument
deriving DecidableEq, Repr

/-- Outcome of an observable instrument-creation call: additionally the
closures registered with the collection scheduler. -/
structure ObservableCall (H Cb σ : Type) where
  result : Except MetricsError H
  reported : List MetricsError
  resolved : List Instrument
  registered : List (RegisteredCallback Cb σ)
deriving DecidableEq, Repr

variable {σu σi σf Cb : Type}

/-- Rust `SdkMeter::u64_counter` (InstrumentProvider impl): validate, then look up
`InstrumentKind::Counter` through the u64 resolver and wrap in `Counter`. -/
def SdkMeter.u64_counter (m : SdkMeter σu σi σf) (name : List Char)
    (description unit : Option (List Char)) : SyncCall (Counter σu) :=
  match validate_instrument_config name unit m.validation_policy with
  | ⟨.error e, rep⟩ => ⟨.error e, rep, []⟩
  | ⟨.ok _, rep⟩ =>
    match InstrumentResolver.lookup m.scope m.u64_resolver .Counter name description unit with
    | (.error e, log) => ⟨.error e, rep, log⟩
    | (.ok i, log) => ⟨.ok ⟨i⟩, rep, log⟩

/-- Rust `SdkMeter::f64_counter`. -/
def SdkMeter.f64_counter (m : SdkMeter σu σi σf) (name : List Char)
    (description unit : Option (List Char)) : SyncCall (Counter σf) :=
  match validate_instrument_config name unit m.validation_policy with
  | ⟨.error e, rep⟩ => ⟨.error e, rep, []⟩
  | ⟨.ok _, rep⟩ =>
    match InstrumentResolver.lookup m.scope m.f64_resolver .Counter name description unit with
    | (.error e, log) => ⟨.error e, rep, log⟩
    | (.ok i, log) => ⟨.ok ⟨i⟩, rep, log⟩

/-- Rust `SdkMeter::u64_observable_counter`: validate, resolve the sink list; an
empty list yields a no-op handle with nothing registered, otherwise one
closure per user callback is registered with the collection scheduler. -/
def SdkMeter.u64_observable_counter (m : SdkMeter σu σi σf) (name : List Char)
    (description unit : Option (List Char)) (callbacks : List Cb) :
    ObservableCall (ObservableCounter σu) Cb σu :=
  match validate_instrument_config name unit m.validation_policy with
  | ⟨.error e, rep⟩ => ⟨.error e, rep, [], []⟩
  | ⟨.ok _, rep⟩ =>
    match InstrumentResolver.measures m.scope m.u64_resolver .ObservableCounter name description unit with
    | (.error e, log) => ⟨.error e, rep, log, []⟩
    | (.ok ms, log) =>
      if ms.isEmpty then
        ⟨.ok ⟨.noop⟩, rep, log, []⟩
      else
        let observable : Observable σu := ⟨ms⟩
        ⟨.ok ⟨.observable observable⟩, rep, log,
          callbacks.map (fun callback => (callback, observable))⟩

/-- Rust `SdkMeter::f64_observable_counter`. -/
def SdkMeter.f64_observable_counter (m : SdkMeter σu σi σf) (name : List Char)
    (description unit : Option (List Char)) (callbacks : List Cb) :
    ObservableCall (ObservableCounter σf) Cb σf :=
  match validate_instrument_config name unit m.validation_policy with
  | ⟨.error e, rep⟩ => ⟨.error e, rep, [], []⟩
  | ⟨.ok _, rep⟩ =>
    match InstrumentResolver.measures m.scope m.f64_resolver .ObservableCounter name description unit with
    | (.error e, log) => ⟨.error e, rep, log, []⟩
    | (.ok ms, log) =>
      if ms.isEmpty then
        ⟨.ok ⟨.noop⟩, rep, log, []⟩
      else
        let observable : Observable σf := ⟨ms⟩
        ⟨.ok ⟨.observable observable⟩, rep, log,
          callbacks.map (fun callback => (callback, observable))⟩

/-- Rust `SdkMeter::i64_up_down_counter`. -/
def SdkMeter.i64_up_down_counter (m : SdkMeter σu σi σf) (name : List Char)
    (description unit : Option (List Char)) : SyncCall (UpDownCounter σi) :=
  match validate_instrument_config name unit m.validation_policy with
  | ⟨.error e, rep⟩ => ⟨.error e, rep, []⟩
  | ⟨.ok _, rep⟩ =>
    match InstrumentResolver.lookup m.scope m.i64_resolver .UpDownCounter name description unit with
    | (.error e, log) => ⟨.error e, rep, log⟩
    | (.ok i, log) => ⟨.ok ⟨i⟩, rep, log⟩

/-- Rust `SdkMeter::f64_up_down_counter`. -/
def SdkMeter.f64_up_down_counter (m : SdkMeter σu σi σf) (name : List Char)
    (description unit : Option (List Char)) : SyncCall (UpDownCounter σf) :=
  match validate_instrument_config name unit m.validation_policy with
  | ⟨.error e, rep⟩ => ⟨.error e, rep, []⟩
  | ⟨.ok _, rep⟩ =>
    match InstrumentResolver.lookup m.scope m.f64_resolver .UpDownCounter name description unit with
    | (.error e, log) => ⟨.error e, rep, log⟩
    | (.ok i, log) => ⟨.ok ⟨i⟩, rep, log⟩

/-- Rust `SdkMeter::i64_observable_up_down_counter`. -/
def SdkMeter.i64_observable_up_down_counter (m : SdkMeter σu σi σf) (name : List Char)
    (description unit : Option (List Char)) (callbacks : List Cb) :
    ObservableCall (ObservableUpDownCounter σi) Cb σi :=
  match validate_instrument_config name unit m.validation_policy with
  | ⟨.error e, rep⟩ => ⟨.error e, rep, [], []⟩
  | ⟨.ok _, rep⟩ =>
    match InstrumentResolver.measures m.scope m.i64_resolver .ObservableUpDownCounter name description unit with
    | (.error e, log) => ⟨.error e, rep, log, []⟩
    | (.ok ms, log) =>
      if ms.isEmpty then
        ⟨.ok ⟨.noop⟩, rep, log, []⟩
      else
        let observable : Observable σi := ⟨ms⟩
        ⟨.ok ⟨.observable observable⟩, rep, log,
          callbacks.map (fun callback => (callback, observable))⟩

/-- Rust `SdkMeter::f64_observable_up_down_counter`. -/
def SdkMeter.f64_observable_up_down_counter (m : SdkMeter σu σi σf) (name : List Char)
    (description unit : Option (List Char)) (callbacks : List Cb) :
    ObservableCall (ObservableUpDownCounter σf) Cb σf :=
  match validate_instrument_config name unit m.validation_policy with
  | ⟨.error e, rep⟩ => ⟨.error e, rep, [], []⟩
  | ⟨.ok _, rep⟩ =>
    match InstrumentResolver.measures m.scope m.f64_resolver .ObservableUpDownCounter name description unit with
    | (.error e, log) => ⟨.error e, rep, log, []⟩
    | (.ok ms, log) =>
      if ms.isEmpty then
        ⟨.ok ⟨.noop⟩, rep, log, []⟩
      else
        let observable : Observable σf := ⟨ms⟩
        ⟨.ok ⟨.observable observable⟩, rep, log,
          callbacks.map (fun callback => (callback, observable))⟩

/-- Rust `SdkMeter::u64_gauge`. -/
def SdkMeter.u64_gauge (m : SdkMeter σu σi σf) (name : List Char)
    (description unit : Option (List Char)) : SyncCall (Gauge σu) :=
  match validate_instrument_config name unit m.validation_policy with
  | ⟨.error e, rep⟩ => ⟨.error e, rep, []⟩
  | ⟨.ok _, rep⟩ =>
    match InstrumentResolver.lookup m.scope m.u64_resolver .Gauge name description unit with
    | (.error e, log) => ⟨.error e, rep, log⟩
    | (.ok i, log) => ⟨.ok ⟨i⟩, rep, log⟩

/-- Rust `SdkMeter::f64_gauge`. -/
def SdkMeter.f64_gauge (m : SdkMeter σu σi σf) (name : List Char)
    (description unit : Option (List Char)) : SyncCall (Gauge σf) :=
  match validate_instrument_config name unit m.validation_policy with
  | ⟨.error e, rep⟩ => ⟨.error e, rep, []⟩
  | ⟨.ok _, rep⟩ =>
    match InstrumentResolver.lookup m.scope m.f64_resolver .Gauge name description unit with
    | (.error e, log) => ⟨.error e, rep, log⟩
    | (.ok i, log) => ⟨.ok ⟨i⟩, rep, log⟩

/-- Rust `SdkMeter::i64_gauge`. -/
def SdkMeter.i64_gauge (m : SdkMeter σu σi σf) (name : List Char)
    (description unit : Option (List Char)) : SyncCall (Gauge σi) :=
  match validate_instrument_config name unit m.validation_policy with
  | ⟨.error e, rep⟩ => ⟨.error e, rep, []⟩
  | ⟨.ok _, rep⟩ =>
    match InstrumentResolver.lookup m.scope m.i64_resolver .Gauge name description unit with
    | (.error e, log) => ⟨.error e, rep, log⟩
    | (.ok i, log) => ⟨.ok ⟨i⟩, rep, log⟩

/-- Rust `SdkMeter::u64_observable_gauge`. -/
def SdkMeter.u64_observable_gauge (m : SdkMeter σu σi σf) (name : List Char)
    (description unit : Option (List Char)) (callbacks : List Cb) :
    ObservableCall (ObservableGauge σu) Cb σu :=
  match validate_instrument_config name unit m.validation_policy with
  | ⟨.error e, rep⟩ => ⟨.error e, rep, [], []⟩
  | ⟨.ok _, rep⟩ =>
    match InstrumentResolver.measures m.scope m.u64_resolver .ObservableGauge name description unit with
    | (.error e, log) => ⟨.error e, rep, log, []⟩
    | (.ok ms, log) =>
      if ms.isEmpty then
        ⟨.ok ⟨.noop⟩, rep, log, []⟩
      else
        let observable : Observable σu := ⟨ms⟩
        ⟨.ok ⟨.observable observable⟩, rep, log,
          callbacks.map (fun callback => (callback, observable))⟩

/-- Rust `SdkMeter::i64_observable_gauge`. -/
def SdkMeter.i64_observable_gauge (m : SdkMeter σu σi σf) (name : List Char)
    (description unit : Option (List Char)) (callbacks : List Cb) :
    ObservableCall (ObservableGauge σi) Cb σi :=
  match validate_instrument_config name unit m.validation_policy with
  | ⟨.error e, rep⟩ => ⟨.error e, rep, [], []⟩
  | ⟨.ok _, rep⟩ =>
    match InstrumentResolver.measures m.scope m.i64_resolver .ObservableGauge name description unit with
    | (.error e, log) => ⟨.error e, rep, log, []⟩
    | (.ok ms, log) =>
      if ms.isEmpty then
        ⟨.ok ⟨.noop⟩, rep, log, []⟩
      else
        let observable : Observable σi := ⟨ms⟩
        ⟨.ok ⟨.observable observable⟩, rep, log,
          callbacks.map (fun callback => (callback, observable))⟩

/-- Rust `SdkMeter::f64_observable_gauge`. -/
def SdkMeter.f64_observable_gauge (m : SdkMeter σu σi σf) (name : List Char)
    (description unit : Option (List Char)) (callbacks : List Cb) :
    ObservableCall (ObservableGauge σf) Cb σf :=
  match validate_instrument_config name unit m.validation_policy with
  | ⟨.error e, rep⟩ => ⟨.error e, rep, [], []⟩
  | ⟨.ok _, rep⟩ =>
    match InstrumentResolver.measures m.scope m.f64_resolver .ObservableGauge name description unit with
    | (.error e, log) => ⟨.error e, rep, log, []⟩
    | (.ok ms, log) =>
      if ms.isEmpty then
        ⟨.ok ⟨.noop⟩, rep, log, []⟩
      else
        let observable : Observable σf := ⟨ms⟩
        ⟨.ok ⟨.observable observable⟩, rep, log,
          callbacks.map (fun callback => (callback, observable))⟩

/-- Rust `SdkMeter::f64_histogram`. -/
def SdkMeter.f64_histogram (m : SdkMeter σu σi σf) (name : List Char)
    (description unit : Option (List Char)) : SyncCall (Histogram σf) :=
  match validate_instrument_config name unit m.validation_policy with
  | ⟨.error e, rep⟩ => ⟨.error e, rep, []⟩
  | ⟨.ok _, rep⟩ =>
    match InstrumentResolver.lookup m.scope m.f64_resolver .Histogram name description unit with
    | (.error e, log) => ⟨.error e, rep, log⟩
    | (.ok i, log) => ⟨.ok ⟨i⟩, rep, log⟩

/-- Rust `SdkMeter::u64_histogram`. -/
def SdkMeter.u64_histogram (m : SdkMeter σu σi σf) (name : List Char)
    (description unit : Option (List Char)) : SyncCall (Histogram σu) :=
  match validate_instrument_config name unit m.validation_policy with
  | ⟨.error e, rep⟩ => ⟨.error e, rep, []⟩
  | ⟨.ok _, rep⟩ =>
    match InstrumentResolver.lookup m.scope m.u64_resolver .Histogram name description unit with
    | (.error e, log) => ⟨.error e, rep, log⟩
    | (.ok i, log) => ⟨.ok ⟨i⟩, rep, log⟩

namespace SharedCache

/-!
Model of `SdkMeter::new` for the cache-sharing claim. `Arc` identity is
modelled by an allocation index: `Default::default()` for the view cache
allocates one fresh index, and `Arc::clone` copies the index. `Resolver::new`
stores the `Pipelines` reference and the cache reference it is handed. -/

/-- The reference-type arguments `Resolver::new(pipes, cache)` stores:
the `Arc<Pipelines>` identity and the view-matching cache identity. -/
structure Resolver where
  pipes : Nat
  cache : Nat
deriving DecidableEq, Repr

/-- Rust `Resolver::new(pipes, cache)` keeps both shared references. -/
def Resolver.new (pipes cache : Nat) : Resolver := ⟨pipes, cache⟩

/-- The reference structure of `SdkMeter`: its scope, its `Arc<Pipelines>`
identity, and the three per-numeric-type resolvers. -/
structure MeterRefs where
  scope : Scope
  pipes : Nat
  u64_resolver : Resolver
  i64_resolver : Resolver
  f64_resolver : Resolver
deriving DecidableEq, Repr

/-- Rust `SdkMeter::new(scope, pipes)`: allocates one view cache
(`let view_cache = Default::default()`, modelled as taking the next fresh
allocation index) and hands clones of that same cache to the three
`Resolver::new` calls. Returns the meter together with the next fresh
index, so the number of caches allocated is visible as the index delta. -/
def SdkMeter.new (scope : Scope) (pipes : Nat) (fresh : Nat) : MeterRefs × Nat :=
  let view_cache := fresh
  ({ scope := scope
     pipes := pipes
     u64_resolver := Resolver.new pipes view_cache
     i64_resolver := Resolver.new pipes view_cache
     f64_resolver := Resolver.new pipes view_cache },
   fresh + 1)

end SharedCache

namespace Logs

/-- The guard value carried by `std::sync::PoisonError<T>`. -/
structure PoisonError (T : Type) where
  guard : T

/-- The fixed `Display` text of `std::sync::PoisonError`, its string
representation produced by `err.to_string()`. -/
def poisonDisplayText : String := "poisoned lock: another task failed inside"

/-- Rust `PoisonError::to_string()`: the `Display` text, independent of the
guard. -/
def PoisonError.to_string {T : Type} (_ : PoisonError T) : String :=
  poisonDisplayText

/-- Rust `LogError` from logs/error.rs; boxed payloads are modelled by their
message strings. -/
inductive LogError where
  | ExportFailed (exporter : String)
  | ExportTimedOut (seconds : Nat)
  | AlreadyShutdown (component : String)
  | MutexPoisoned (component : String)
  | Other (message : String)
deriving DecidableEq, Repr

/-- Rust `impl<T> From<PoisonError<T>> for LogError`:
`LogError::Other(err.to_string().into())`. -/
def LogError.from_poison {T : Type} (err : PoisonError T) : LogError :=
  .Other (err.to_string)

end Logs

/-!
Spec-side definitions, written from the claim text rather than from the
source, used to compare the claimed behavior with the code. -/

/-- Match against the name regex of the claim: a first ASCII alphabetic
character followed by at most 254 further characters, each ASCII
alphanumeric or one of underscore, dot, dash, slash. -/
def nameMatchesRegex (name : List Char) : Bool :=
  match name with
  | [] => false
  | c :: rest =>
    isAsciiAlphabetic c && rest.length ≤ 254 &&
      rest.all (fun d => isAsciiAlphanumeric d ||
        INSTRUMENT_NAME_ALLOWED_NON_ALPHANUMERIC_CHARS.contains d)

/-- Name validation as claimed: the same four rules in the same order, but
with the length rule counting characters rather than UTF-8 bytes. -/
def claimed_name_validation (name : List Char) : Except MetricsError Unit :=
  if name.isEmpty then
    .error (.InvalidInstrumentConfiguration .INSTRUMENT_NAME_EMPTY)
  else if name.length > INSTRUMENT_NAME_MAX_LENGTH then
    .error (.InvalidInstrumentConfiguration .INSTRUMENT_NAME_LENGTH)
  else if starts_with name (fun c => !(isAsciiAlphabetic c)) then
    .error (.InvalidInstrumentConfiguration .INSTRUMENT_NAME_FIRST_ALPHABETIC)
  else if name.any (fun c =>
      !(isAsciiAlphanumeric c) &&
      !(INSTRUMENT_NAME_ALLOWED_NON_ALPHANUMERIC_CHARS.contains c)) then
    .error (.InvalidInstrumentConfiguration .INSTRUMENT_NAME_INVALID_CHAR)
  else
    .ok ()

/-- A 129-character name: a letter followed by 128 two-byte characters, so
its character count is 129 but its UTF-8 byte length is 257. -/
def c1CexName : List Char := 'a' :: List.replicate 128 (Char.ofNat 0x100)

/-- A 32-character unit of two-byte characters: 32 characters but 64 UTF-8
bytes, every character non-ASCII. -/
def c2CexUnit : List Char := List.replicate 32 (Char.ofNat 0x100)

/-- A concrete scope for evaluating the model. -/
def testScope : Scope := ⟨['t', 'e', 's', 't']⟩

/-- A concrete meter under the default report-and-continue policy whose
resolvers always return one sink. -/
def testMeterHandle : SdkMeter Nat Nat Nat :=
  { scope := testScope
    u64_resolver := fun _ => .ok [7]
    i64_resolver := fun _ => .ok [8]
    f64_resolver := fun _ => .ok [9]
    validation_policy := .HandleGlobalAndIgnore }

/-- The same meter under the strict policy. -/
def testMeterStrict : SdkMeter Nat Nat Nat :=
  { testMeterHandle with validation_policy := .Strict }

/-- A meter whose resolvers return an empty sink list. -/
def testMeterEmptySinks : SdkMeter Nat Nat Nat :=
  { scope := testScope
    u64_resolver := fun _ => .ok []
    i64_resolver := fun _ => .ok []
    f64_resolver := fun _ => .ok []
    validation_policy := .HandleGlobalAndIgnore }

example : validate_instrument_name ['v', 'a', 'l', 'i', 'd'] = .ok () := by decide

example : validate_instrument_name ['_', 'b', 'a', 'd'] =
    .error (.InvalidInstrumentConfiguration .INSTRUMENT_NAME_FIRST_ALPHABETIC) := by decide

example : validate_instrument_name (List.replicate 256 'a') =
    .error (.InvalidInstrumentConfiguration .INSTRUMENT_NAME_LENGTH) := by decide

example : validate_instrument_name (List.replicate 255 'a') = .ok () := by decide

example : validate_instrument_name ['b', 'a', 'd', ' ', 'n'] =
    .error (.InvalidInstrumentConfiguration .INSTRUMENT_NAME_INVALID_CHAR) := by decide

example : validate_instrument_unit (some ['%']) = .ok () := by decide

example : validate_instrument_unit (some (List.replicate 64 '0')) =
    .error (.InvalidInstrumentConfiguration .INSTRUMENT_UNIT_LENGTH) := by decide

example : validate_instrument_unit (some ['k', Char.ofNat 0x9508]) =
    .error (.InvalidInstrumentConfiguration .INSTRUMENT_UNIT_INVALID_CHAR) := by decide

/-! ### Helper lemmas about UTF-8 lengths and character classes -/

lemma utf8Len_cons (c : Char) (s : List Char) :
    utf8Len (c :: s) = utf8CharLen c + utf8Len s := by
  simp [utf8Len]

lemma one_le_utf8CharLen (c : Char) : 1 ≤ utf8CharLen c := by
  unfold utf8CharLen
  split
  · omega
  · split
    · omega
    · split <;> omega

lemma utf8CharLen_of_lt (c : Char) (h : c.toNat < 0x80) : utf8CharLen c = 1 := by
  unfold utf8CharLen
  rw [if_pos h]

lemma length_le_utf8Len (s : List Char) : s.length ≤ utf8Len s := by
  induction s with
  | nil => simp [utf8Len]
  | cons c t ih =>
    have := one_le_utf8CharLen c
    rw [utf8Len_cons, List.length_cons]
    omega

lemma utf8Len_eq_length (s : List Char) (h : ∀ c ∈ s, c.toNat < 0x80) :
    utf8Len s = s.length := by
  induction s with
  | nil => rfl
  | cons c t ih =>
    rw [utf8Len_cons, utf8CharLen_of_lt c (h c (List.mem_cons_self c t)),
      ih (fun d hd => h d (List.mem_cons_of_mem c hd)), List.length_cons]
    omega

lemma toNat_lt_of_alphanumeric (c : Char) (h : isAsciiAlphanumeric c = true) :
    c.toNat < 0x80 := by
  simp only [isAsciiAlphanumeric, isAsciiAlphabetic, isAsciiDigit, Bool.or_eq_true,
    Bool.and_eq_true, decide_eq_true_eq] at h
  omega

lemma toNat_lt_of_allowed_special (c : Char)
    (h : INSTRUMENT_NAME_ALLOWED_NON_ALPHANUMERIC_CHARS.contains c = true) :
    c.toNat < 0x80 := by
  have hmem : c = '_' ∨ c = '.' ∨ c = '-' ∨ c = '/' := by
    simpa [INSTRUMENT_NAME_ALLOWED_NON_ALPHANUMERIC_CHARS] using h
  rcases hmem with h1 | h1 | h1 | h1 <;> subst h1 <;> decide

lemma toNat_lt_of_isAscii (c : Char) (h : isAscii c = true) : c.toNat < 0x80 := by
  simp only [isAscii, decide_eq_true_eq] at h
  omega

/-! ### Helper lemmas about the validators -/

lemma validate_name_empty : validate_instrument_name [] =
    .error (.InvalidInstrumentConfiguration .INSTRUMENT_NAME_EMPTY) := by decide

lemma validate_name_too_long (name : List Char) (h1 : name ≠ [])
    (h2 : utf8Len name > INSTRUMENT_NAME_MAX_LENGTH) :
    validate_instrument_name name =
      .error (.InvalidInstrumentConfiguration .INSTRUMENT_NAME_LENGTH) := by
  have h0 : name.isEmpty = false := by
    cases name with
    | nil => cases h1 rfl
    | cons c t => rfl
  simp [validate_instrument_name, h0, h2]

lemma validate_name_first_not_alphabetic (c : Char) (rest : List Char)
    (h2 : ¬ utf8Len (c :: rest) > INSTRUMENT_NAME_MAX_LENGTH)
    (hc : isAsciiAlphabetic c = false) :
    validate_instrument_name (c :: rest) =
      .error (.InvalidInstrumentConfiguration .INSTRUMENT_NAME_FIRST_ALPHABETIC) := by
  simp [validate_instrument_name, starts_with, h2, hc]

lemma validate_name_invalid_char (c : Char) (rest : List Char)
    (h2 : ¬ utf8Len (c :: rest) > INSTRUMENT_NAME_MAX_LENGTH)
    (hc : isAsciiAlphabetic c = true)
    (h4 : (c :: rest).any (fun d => !(isAsciiAlphanumeric d) &&
      !(INSTRUMENT_NAME_ALLOWED_NON_ALPHANUMERIC_CHARS.contains d)) = true) :
    validate_instrument_name (c :: rest) =
      .error (.InvalidInstrumentConfiguration .INSTRUMENT_NAME_INVALID_CHAR) := by
  unfold validate_instrument_name
  rw [if_neg (by simp), if_neg h2, if_neg (by simp [starts_with, hc]), if_pos h4]

lemma validate_unit_too_long (u : List Char)
    (h : utf8Len u > INSTRUMENT_UNIT_NAME_MAX_LENGTH) :
    validate_instrument_unit (some u) =
      .error (.InvalidInstrumentConfiguration .INSTRUMENT_UNIT_LENGTH) := by
  simp [validate_instrument_unit, h]

lemma validate_unit_non_ascii (u : List Char)
    (h1 : ¬ utf8Len u > INSTRUMENT_UNIT_NAME_MAX_LENGTH)
    (h2 : u.any (fun c => !(isAscii c)) = true) :
    validate_instrument_unit (some u) =
      .error (.InvalidInstrumentConfiguration .INSTRUMENT_UNIT_INVALID_CHAR) := by
  simp [validate_instrument_unit, h1, h2]

lemma validate_unit_some_ok_iff (u : List Char) :
    validate_instrument_unit (some u) = .ok () ↔
      utf8Len u ≤ 63 ∧ (∀ c ∈ u, isAscii c = true) := by
  unfold validate_instrument_unit INSTRUMENT_UNIT_NAME_MAX_LENGTH
  by_cases h1 : utf8Len u > 63
  · simp only [if_pos h1]
    constructor
    · intro h; cases h
    · intro h; omega
  · simp only [if_neg h1]
    by_cases h2 : u.any (fun c => !(isAscii c)) = true
    · simp only [if_pos h2]
      constructor
      · intro h; cases h
      · intro h
        obtain ⟨c, hc, hcn⟩ := List.any_eq_true.mp h2
        rw [h.2 c hc] at hcn
        cases hcn
    · simp only [if_neg h2]
      constructor
      · intro _
        refine ⟨by omega, fun c hc => ?_⟩
        by_contra hcn
        exact h2 (List.any_eq_true.mpr ⟨c, hc, by simp [hcn]⟩)
      · intro _; trivial

lemma validate_name_ok_of_regex (name : List Char) (h : nameMatchesRegex name = true) :
    validate_instrument_name name = .ok () := by
  match name with
  | [] => simp [nameMatchesRegex] at h
  | c :: rest =>
    simp only [nameMatchesRegex, Bool.and_eq_true, List.all_eq_true,
      decide_eq_true_eq] at h
    obtain ⟨⟨hc, hrest⟩, hall⟩ := h
    have hcn : isAsciiAlphanumeric c = true := by
      simp [isAsciiAlphanumeric, hc]
    have hlt : ∀ d ∈ c :: rest, d.toNat < 0x80 := by
      intro d hd
      rcases List.mem_cons.mp hd with h1 | h1
      · subst h1; exact toNat_lt_of_alphanumeric d hcn
      · have h2 := hall d h1
        rw [Bool.or_eq_true] at h2
        rcases h2 with h2 | h2
        · exact toNat_lt_of_alphanumeric d h2
        · exact toNat_lt_of_allowed_special d h2
    have hlen : ¬ utf8Len (c :: rest) > INSTRUMENT_NAME_MAX_LENGTH := by
      rw [utf8Len_eq_length _ hlt, List.length_cons]
      unfold INSTRUMENT_NAME_MAX_LENGTH
      omega
    have hbad : ((c :: rest).any (fun d => !(isAsciiAlphanumeric d) &&
        !(INSTRUMENT_NAME_ALLOWED_NON_ALPHANUMERIC_CHARS.contains d))) = false := by
      rw [List.any_eq_false]
      intro d hd
      rcases List.mem_cons.mp hd with h1 | h1
      · subst h1; simp [hcn]
      · have h2 := hall d h1
        rw [Bool.or_eq_true] at h2
        rcases h2 with h2 | h2
        · simp [h2]
        · have hm : d ∈ INSTRUMENT_NAME_ALLOWED_NON_ALPHANUMERIC_CHARS :=
            List.mem_of_elem_eq_true h2
          simp [hm]
    unfold validate_instrument_name
    rw [if_neg (by simp), if_neg hlen, if_neg (by simp [starts_with, hc]),
      if_neg (by rw [hbad]; simp)]

/-! ### Helper lemmas about validate_instrument_config and the creation calls -/

lemma validate_combined_error_name (name : List Char) (unit : Option (List Char))
    (e : MetricsError) (h : validate_instrument_name name = .error e) :
    validate_combined name unit = .error e := by
  unfold validate_combined
  rw [h]
  rfl

lemma validate_combined_ok_name (name : List Char) (unit : Option (List Char))
    (h : validate_instrument_name name = .ok ()) :
    validate_combined name unit = validate_instrument_unit unit := by
  unfold validate_combined
  rw [h]
  rfl

lemma config_handle_result (name : List Char) (unit : Option (List Char)) :
    (validate_instrument_config name unit .HandleGlobalAndIgnore).result = .ok () := by
  unfold validate_instrument_config
  cases validate_combined name unit <;> rfl

lemma config_handle_invalid (name : List Char) (unit : Option (List Char))
    (e : MetricsError) (h : validate_combined name unit = .error e) :
    validate_instrument_config name unit .HandleGlobalAndIgnore = ⟨.ok (), [e]⟩ := by
  unfold validate_instrument_config
  rw [h]

lemma config_of_valid (name : List Char) (unit : Option (List Char))
    (policy : InstrumentValidationPolicy) (h : validate_combined name unit = .ok ()) :
    validate_instrument_config name unit policy = ⟨.ok (), []⟩ := by
  unfold validate_instrument_config
  rw [h]

lemma config_strict_invalid (name : List Char) (unit : Option (List Char))
    (e : MetricsError) (h : validate_combined name unit = .error e) :
    validate_instrument_config name unit .Strict = ⟨.error e, []⟩ := by
  unfold validate_instrument_config
  rw [h]

lemma u64_counter_spec (m : SdkMeter σu σi σf) (name : List Char)
    (description unit : Option (List Char)) (sinks : List σu)
    (hv : (validate_instrument_config name unit m.validation_policy).result = .ok ())
    (hm : (InstrumentResolver.measures m.scope m.u64_resolver .Counter
      name description unit).1 = .ok sinks) :
    (m.u64_counter name description unit).result = .ok ⟨⟨sinks⟩⟩ := by
  rcases hcfg : validate_instrument_config name unit m.validation_policy with ⟨res, rep⟩
  rw [hcfg] at hv
  dsimp at hv
  subst hv
  rcases hms : InstrumentResolver.measures m.scope m.u64_resolver .Counter
    name description unit with ⟨r1, log⟩
  rw [hms] at hm
  dsimp at hm
  subst hm
  simp [SdkMeter.u64_counter, InstrumentResolver.lookup, hcfg, hms]

lemma u64_observable_counter_spec (m : SdkMeter σu σi σf) (name : List Char)
    (description unit : Option (List Char)) (callbacks : List Cb) (ms : List σu)
    (hv : (validate_instrument_config name unit m.validation_policy).result = .ok ())
    (hm : (InstrumentResolver.measures m.scope m.u64_resolver .ObservableCounter
      name description unit).1 = .ok ms) :
    (m.u64_observable_counter name description unit callbacks).result =
      .ok (if ms.isEmpty then ⟨.noop⟩ else ⟨.observable ⟨ms⟩⟩) ∧
    (m.u64_observable_counter name description unit callbacks).registered =
      (if ms.isEmpty then [] else
        callbacks.map (fun callback => (callback, (⟨ms⟩ : Observable σu)))) := by
  rcases hcfg : validate_instrument_config name unit m.validation_policy with ⟨res, rep⟩
  rw [hcfg] at hv
  dsimp at hv
  subst hv
  rcases hms : InstrumentResolver.measures m.scope m.u64_resolver .ObservableCounter
    name description unit with ⟨r1, log⟩
  rw [hms] at hm
  dsimp at hm
  subst hm
  by_cases he : ms.isEmpty = true
  · simp [SdkMeter.u64_observable_counter, hcfg, hms, he]
  · simp [SdkMeter.u64_observable_counter, hcfg, hms, he]

lemma f64_counter_spec (m : SdkMeter σu σi σf) (name : List Char)
    (description unit : Option (List Char)) (sinks : List σf)
    (hv : (validate_instrument_config name unit m.validation_policy).result = .ok ())
    (hm : (InstrumentResolver.measures m.scope m.f64_resolver .Counter
      name description unit).1 = .ok sinks) :
    (m.f64_counter name description unit).result = .ok ⟨⟨sinks⟩⟩ := by
  rcases hcfg : validate_instrument_config name unit m.validation_policy with ⟨res, rep⟩
  rw [hcfg] at hv
  dsimp at hv
  subst hv
  rcases hms : InstrumentResolver.measures m.scope m.f64_resolver .Counter
    name description unit with ⟨r1, log⟩
  rw [hms] at hm
  dsimp at hm
  subst hm
  simp [SdkMeter.f64_counter, InstrumentResolver.lookup, hcfg, hms]

lemma i64_up_down_counter_spec (m : SdkMeter σu σi σf) (name : List Char)
    (description unit : Option (List Char)) (sinks : List σi)
    (hv : (validate_instrument_config name unit m.validation_policy).result = .ok ())
    (hm : (InstrumentResolver.measures m.scope m.i64_resolver .UpDownCounter
      name description unit).1 = .ok sinks) :
    (m.i64_up_down_counter name description unit).result = .ok ⟨⟨sinks⟩⟩ := by
  rcases hcfg : validate_instrument_config name unit m.validation_policy with ⟨res, rep⟩
  rw [hcfg] at hv
  dsimp at hv
  subst hv
  rcases hms : InstrumentResolver.measures m.scope m.i64_resolver .UpDownCounter
    name description unit with ⟨r1, log⟩
  rw [hms] at hm
  dsimp at hm
  subst hm
  simp [SdkMeter.i64_up_down_counter, InstrumentResolver.lookup, hcfg, hms]

lemma f64_up_down_counter_spec (m : SdkMeter σu σi σf) (name : List Char)
    (description unit : Option (List Char)) (sinks : List σf)
    (hv : (validate_instrument_config name unit m.validation_policy).result = .ok ())
    (hm : (InstrumentResolver.measures m.scope m.f64_resolver .UpDownCounter
      name description unit).1 = .ok sinks) :
    (m.f64_up_down_counter name description unit).result = .ok ⟨⟨sinks⟩⟩ := by
  rcases hcfg : validate_instrument_config name unit m.validation_policy with ⟨res, rep⟩
  rw [hcfg] at hv
  dsimp at hv
  subst hv
  rcases hms : InstrumentResolver.measures m.scope m.f64_resolver .UpDownCounter
    name description unit with ⟨r1, log⟩
  rw [hms] at hm
  dsimp at hm
  subst hm
  simp [SdkMeter.f64_up_down_counter, InstrumentResolver.lookup, hcfg, hms]

lemma u64_gauge_spec (m : SdkMeter σu σi σf) (name : List Char)
    (description unit : Option (List Char)) (sinks : List σu)
    (hv : (validate_instrument_config name unit m.validation_policy).result = .ok ())
    (hm : (InstrumentResolver.measures m.scope m.u64_resolver .Gauge
      name description unit).1 = .ok sinks) :
    (m.u64_gauge name description unit).result = .ok ⟨⟨sinks⟩⟩ := by
  rcases hcfg : validate_instrument_config name unit m.validation_policy with ⟨res, rep⟩
  rw [hcfg] at hv
  dsimp at hv
  subst hv
  rcases hms : InstrumentResolver.measures m.scope m.u64_resolver .Gauge
    name description unit with ⟨r1, log⟩
  rw [hms] at hm
  dsimp at hm
  subst hm
  simp [SdkMeter.u64_gauge, InstrumentResolver.lookup, hcfg, hms]

lemma f64_gauge_spec (m : SdkMeter σu σi σf) (name : List Char)
    (description unit : Option (List Char)) (sinks : List σf)
    (hv : (validate_instrument_config name unit m.validation_policy).result = .ok ())
    (hm : (InstrumentResolver.measures m.scope m.f64_resolver .Gauge
      name description unit).1 = .ok sinks) :
    (m.f64_gauge name description unit).result = .ok ⟨⟨sinks⟩⟩ := by
  rcases hcfg : validate_instrument_config name unit m.validation_policy with ⟨res, rep⟩
  rw [hcfg] at hv
  dsimp at hv
  subst hv
  rcases hms : InstrumentResolver.measures m.scope m.f64_resolver .Gauge
    name description unit with ⟨r1, log⟩
  rw [hms] at hm
  dsimp at hm
  subst hm
  simp [SdkMeter.f64_gauge, InstrumentResolver.lookup, hcfg, hms]

lemma i64_gauge_spec (m : SdkMeter σu σi σf) (name : List Char)
    (description unit : Option (List Char)) (sinks : List σi)
    (hv : (validate_instrument_config name unit m.validation_policy).result = .ok ())
    (hm : (InstrumentResolver.measures m.scope m.i64_resolver .Gauge
      name description unit).1 = .ok sinks) :
    (m.i64_gauge name description unit).result = .ok ⟨⟨sinks⟩⟩ := by
  rcases hcfg : validate_instrument_config name unit m.validation_policy with ⟨res, rep⟩
  rw [hcfg] at hv
  dsimp at hv
  subst hv
  rcases hms : InstrumentResolver.measures m.scope m.i64_resolver .Gauge
    name description unit with ⟨r1, log⟩
  rw [hms] at hm
  dsimp at hm
  subst hm
  simp [SdkMeter.i64_gauge, InstrumentResolver.lookup, hcfg, hms]

lemma f64_histogram_spec (m : SdkMeter σu σi σf) (name : List Char)
    (description unit : Option (List Char)) (sinks : List σf)
    (hv : (validate_instrument_config name unit m.validation_policy).result = .ok ())
    (hm : (InstrumentResolver.measures m.scope m.f64_resolver .Histogram
      name description unit).1 = .ok sinks) :
    (m.f64_histogram name description unit).result = .ok ⟨⟨sinks⟩⟩ := by
  rcases hcfg : validate_instrument_config name unit m.validation_policy with ⟨res, rep⟩
  rw [hcfg] at hv
  dsimp at hv
  subst hv
  rcases hms : InstrumentResolver.measures m.scope m.f64_resolver .Histogram
    name description unit with ⟨r1, log⟩
  rw [hms] at hm
  dsimp at hm
  subst hm
  simp [SdkMeter.f64_histogram, InstrumentResolver.lookup, hcfg, hms]

lemma u64_histogram_spec (m : SdkMeter σu σi σf) (name : List Char)
    (description unit : Option (List Char)) (sinks : List σu)
    (hv : (validate_instrument_config name unit m.validation_policy).result = .ok ())
    (hm : (InstrumentResolver.measures m.scope m.u64_resolver .Histogram
      name description unit).1 = .ok sinks) :
    (m.u64_histogram name description unit).result = .ok ⟨⟨sinks⟩⟩ := by
  rcases hcfg : validate_instrument_config name unit m.validation_policy with ⟨res, rep⟩
  rw [hcfg] at hv
  dsimp at hv
  subst hv
  rcases hms : InstrumentResolver.measures m.scope m.u64_resolver .Histogram
    name description unit with ⟨r1, log⟩
  rw [hms] at hm
  dsimp at hm
  subst hm
  simp [SdkMeter.u64_histogram, InstrumentResolver.lookup, hcfg, hms]

lemma f64_observable_counter_spec (m : SdkMeter σu σi σf) (name : List Char)
    (description unit : Option (List Char)) (callbacks : List Cb) (ms : List σf)
    (hv : (validate_instrument_config name unit m.validation_policy).result = .ok ())
    (hm : (InstrumentResolver.measures m.scope m.f64_resolver .ObservableCounter
      name description unit).1 = .ok ms) :
    (m.f64_observable_counter name description unit callbacks).result =
      .ok (if ms.isEmpty then ⟨.noop⟩ else ⟨.observable ⟨ms⟩⟩) ∧
    (m.f64_observable_counter name description unit callbacks).registered =
      (if ms.isEmpty then [] else
        callbacks.map (fun callback => (callback, (⟨ms⟩ : Observable σf)))) := by
  rcases hcfg : validate_instrument_config name unit m.validation_policy with ⟨res, rep⟩
  rw [hcfg] at hv
  dsimp at hv
  subst hv
  rcases hms : InstrumentResolver.measures m.scope m.f64_resolver .ObservableCounter
    name description unit with ⟨r1, log⟩
  rw [hms] at hm
  dsimp at hm
  subst hm
  by_cases he : ms.isEmpty = true
  · simp [SdkMeter.f64_observable_counter, hcfg, hms, he]
  · simp [SdkMeter.f64_observable_counter, hcfg, hms, he]

lemma i64_observable_up_down_counter_spec (m : SdkMeter σu σi σf) (name : List Char)
    (description unit : Option (List Char)) (callbacks : List Cb) (ms : List σi)
    (hv : (validate_instrument_config name unit m.validation_policy).result = .ok ())
    (hm : (InstrumentResolver.measures m.scope m.i64_resolver .ObservableUpDownCounter
      name description unit).1 = .ok ms) :
    (m.i64_observable_up_down_counter name description unit callbacks).result =
      .ok (if ms.isEmpty then ⟨.noop⟩ else ⟨.observable ⟨ms⟩⟩) ∧
    (m.i64_observable_up_down_counter name description unit callbacks).registered =
      (if ms.isEmpty then [] else
        callbacks.map (fun callback => (callback, (⟨ms⟩ : Observable σi)))) := by
  rcases hcfg : validate_instrument_config name unit m.validation_policy with ⟨res, rep⟩
  rw [hcfg] at hv
  dsimp at hv
  subst hv
  rcases hms : InstrumentResolver.measures m.scope m.i64_resolver .ObservableUpDownCounter
    name description unit with ⟨r1, log⟩
  rw [hms] at hm
  dsimp at hm
  subst hm
  by_cases he : ms.isEmpty = true
  · simp [SdkMeter.i64_observable_up_down_counter, hcfg, hms, he]
  · simp [SdkMeter.i64_observable_up_down_counter, hcfg, hms, he]

lemma f64_observable_up_down_counter_spec (m : SdkMeter σu σi σf) (name : List Char)
    (description unit : Option (List Char)) (callbacks : List Cb) (ms : List σf)
    (hv : (validate_instrument_config name unit m.validation_policy).result = .ok ())
    (hm : (InstrumentResolver.measures m.scope m.f64_resolver .ObservableUpDownCounter
      name description unit).1 = .ok ms) :
    (m.f64_observable_up_down_counter name description unit callbacks).result =
      .ok (if ms.isEmpty then ⟨.noop⟩ else ⟨.observable ⟨ms⟩⟩) ∧
    (m.f64_observable_up_down_counter name description unit callbacks).registered =
      (if ms.isEmpty then [] else
        callbacks.map (fun callback => (callback, (⟨ms⟩ : Observable σf)))) := by
  rcases hcfg : validate_instrument_config name unit m.validation_policy with ⟨res, rep⟩
  rw [hcfg] at hv
  dsimp at hv
  subst hv
  rcases hms : InstrumentResolver.measures m.scope m.f64_resolver .ObservableUpDownCounter
    name description unit with ⟨r1, log⟩
  rw [hms] at hm
  dsimp at hm
  subst hm
  by_cases he : ms.isEmpty = true
  · simp [SdkMeter.f64_observable_up_down_counter, hcfg, hms, he]
  · simp [SdkMeter.f64_observable_up_down_counter, hcfg, hms, he]

lemma u64_observable_gauge_spec (m : SdkMeter σu σi σf) (name : List Char)
    (description unit : Option (List Char)) (callbacks : List Cb) (ms : List σu)
    (hv : (validate_instrument_config name unit m.validation_policy).result = .ok ())
    (hm : (InstrumentResolver.measures m.scope m.u64_resolver .ObservableGauge
      name description unit).1 = .ok ms) :
    (m.u64_observable_gauge name description unit callbacks).result =
      .ok (if ms.isEmpty then ⟨.noop⟩ else ⟨.observable ⟨ms⟩⟩) ∧
    (m.u64_observable_gauge name description unit callbacks).registered =
      (if ms.isEmpty then [] else
        callbacks.map (fun callback => (callback, (⟨ms⟩ : Observable σu)))) := by
  rcases hcfg : validate_instrument_config name unit m.validation_policy with ⟨res, rep⟩
  rw [hcfg] at hv
  dsimp at hv
  subst hv
  rcases hms : InstrumentResolver.measures m.scope m.u64_resolver .ObservableGauge
    name description unit with ⟨r1, log⟩
  rw [hms] at hm
  dsimp at hm
  subst hm
  by_cases he : ms.isEmpty = true
  · simp [SdkMeter.u64_observable_gauge, hcfg, hms, he]
  · simp [SdkMeter.u64_observable_gauge, hcfg, hms, he]

lemma i64_observable_gauge_spec (m : SdkMeter σu σi σf) (name : List Char)
    (description unit : Option (List Char)) (callbacks : List Cb) (ms : List σi)
    (hv : (validate_instrument_config name unit m.validation_policy).result = .ok ())
    (hm : (InstrumentResolver.measures m.scope m.i64_resolver .ObservableGauge
      name description unit).1 = .ok ms) :
    (m.i64_observable_gauge name description unit callbacks).result =
      .ok (if ms.isEmpty then ⟨.noop⟩ else ⟨.observable ⟨ms⟩⟩) ∧
    (m.i64_observable_gauge name description unit callbacks).registered =
      (if ms.isEmpty then [] else
        callbacks.map (fun callback => (callback, (⟨ms⟩ : Observable σi)))) := by
  rcases hcfg : validate_instrument_config name unit m.validation_policy with ⟨res, rep⟩
  rw [hcfg] at hv
  dsimp at hv
  subst hv
  rcases hms : InstrumentResolver.measures m.scope m.i64_resolver .ObservableGauge
    name description unit with ⟨r1, log⟩
  rw [hms] at hm
  dsimp at hm
  subst hm
  by_cases he : ms.isEmpty = true
  · simp [SdkMeter.i64_observable_gauge, hcfg, hms, he]
  · simp [SdkMeter.i64_observable_gauge, hcfg, hms, he]

lemma f64_observable_gauge_spec (m : SdkMeter σu σi σf) (name : List Char)
    (description unit : Option (List Char)) (callbacks : List Cb) (ms : List σf)
    (hv : (validate_instrument_config name unit m.validation_policy).result = .ok ())
    (hm : (InstrumentResolver.measures m.scope m.f64_resolver .ObservableGauge
      name description unit).1 = .ok ms) :
    (m.f64_observable_gauge name description unit callbacks).result =
      .ok (if ms.isEmpty then ⟨.noop⟩ else ⟨.observable ⟨ms⟩⟩) ∧
    (m.f64_observable_gauge name description unit callbacks).registered =
      (if ms.isEmpty then [] else
        callbacks.map (fun callback => (callback, (⟨ms⟩ : Observable σf)))) := by
  rcases hcfg : validate_instrument_config name unit m.validation_policy with ⟨res, rep⟩
  rw [hcfg] at hv
  dsimp at hv
  subst hv
  rcases hms : InstrumentResolver.measures m.scope m.f64_resolver .ObservableGauge
    name description unit with ⟨r1, log⟩
  rw [hms] at hm
  dsimp at hm
  subst hm
  by_cases he : ms.isEmpty = true
  · simp [SdkMeter.f64_observable_gauge, hcfg, hms, he]
  · simp [SdkMeter.f64_observable_gauge, hcfg, hms, he]

/-! ### Claim theorems -/

/-- C1 counterexample: a 129-character name (one letter then 128 two-byte
characters, 257 UTF-8 bytes). Under the claim's rules, checked in order with
the length rule counting characters, the name passes the length rule
(129 characters) and fails the allowed-character rule, so the claim predicts
the invalid-character diagnostic; validate_instrument_name instead rejects
it with the length diagnostic, because the code compares UTF-8 byte
length. -/
theorem C1_counterexample :
    c1CexName.length = 129
  ∧ claimed_name_validation c1CexName =
      .error (.InvalidInstrumentConfiguration .INSTRUMENT_NAME_INVALID_CHAR)
  ∧ validate_instrument_name c1CexName =
      .error (.InvalidInstrumentConfiguration .INSTRUMENT_NAME_LENGTH) := by decide

/-- C1 (amended): every name matching the regex (ASCII alphabetic first
character, at most 254 further characters, all ASCII alphanumeric or
underscore, dot, dash, slash) validates Ok; names violating a rule produce
the rule-specific diagnostic with the rules checked in order (first failure
wins): non-empty, then UTF-8 byte length (not character count) at most 255,
then first character ASCII alphabetic, then every character from the allowed
set. The outcome depends only on the name, hence is the same for every
instrument kind and numeric type. -/
theorem C1_name_validation_rules :
    (∀ name : List Char, nameMatchesRegex name = true →
      validate_instrument_name name = .ok ())
  ∧ validate_instrument_name [] =
      .error (.InvalidInstrumentConfiguration .INSTRUMENT_NAME_EMPTY)
  ∧ (∀ name : List Char, name ≠ [] → utf8Len name > 255 →
      validate_instrument_name name =
        .error (.InvalidInstrumentConfiguration .INSTRUMENT_NAME_LENGTH))
  ∧ (∀ (c : Char) (rest : List Char), utf8Len (c :: rest) ≤ 255 →
      isAsciiAlphabetic c = false →
      validate_instrument_name (c :: rest) =
        .error (.InvalidInstrumentConfiguration .INSTRUMENT_NAME_FIRST_ALPHABETIC))
  ∧ (∀ (c : Char) (rest : List Char), utf8Len (c :: rest) ≤ 255 →
      isAsciiAlphabetic c = true →
      ((c :: rest).any (fun d => !(isAsciiAlphanumeric d) &&
        !(INSTRUMENT_NAME_ALLOWED_NON_ALPHANUMERIC_CHARS.contains d))) = true →
      validate_instrument_name (c :: rest) =
        .error (.InvalidInstrumentConfiguration .INSTRUMENT_NAME_INVALID_CHAR)) := by
  refine ⟨validate_name_ok_of_regex, validate_name_empty, ?_, ?_, ?_⟩
  · intro name h1 h2
    exact validate_name_too_long name h1
      (by simp only [INSTRUMENT_NAME_MAX_LENGTH]; omega)
  · intro c rest h hc
    exact validate_name_first_not_alphabetic c rest
      (by simp only [INSTRUMENT_NAME_MAX_LENGTH]; omega) hc
  · intro c rest h hc h4
    exact validate_name_invalid_char c rest
      (by simp only [INSTRUMENT_NAME_MAX_LENGTH]; omega) hc h4

/-- Witness for C1 (amended): the rules evaluated at concrete names. -/
theorem C1_name_validation_rules_witness :
    validate_instrument_name ['o', 'k', '_', '1'] = .ok ()
  ∧ validate_instrument_name (List.replicate 300 'a') =
      .error (.InvalidInstrumentConfiguration .INSTRUMENT_NAME_LENGTH)
  ∧ validate_instrument_name ['9', 'x'] =
      .error (.InvalidInstrumentConfiguration .INSTRUMENT_NAME_FIRST_ALPHABETIC)
  ∧ validate_instrument_name ['a', '!'] =
      .error (.InvalidInstrumentConfiguration .INSTRUMENT_NAME_INVALID_CHAR) :=
  ⟨C1_name_validation_rules.1 _ (by decide),
   C1_name_validation_rules.2.2.1 _ (by decide) (by decide),
   C1_name_validation_rules.2.2.2.1 '9' ['x'] (by decide) (by decide),
   C1_name_validation_rules.2.2.2.2 'a' ['!'] (by decide) (by decide) (by decide)⟩

/-- C2 counterexample: a unit of 32 two-byte characters (64 UTF-8 bytes),
every character non-ASCII. The claim says any unit containing a non-ASCII
character fails with the ASCII diagnostic; the code rejects this unit with
the length diagnostic instead, because the byte-length check runs first. -/
theorem C2_counterexample :
    (c2CexUnit.any (fun c => !(isAscii c)) = true)
  ∧ c2CexUnit.length = 32
  ∧ validate_instrument_unit (some c2CexUnit) =
      .error (.InvalidInstrumentConfiguration .INSTRUMENT_UNIT_LENGTH)
  ∧ validate_instrument_unit (some c2CexUnit) ≠
      .error (.InvalidInstrumentConfiguration .INSTRUMENT_UNIT_INVALID_CHAR) := by decide

/-- C2 (amended): validate_instrument_unit returns Ok exactly when the unit
is absent, or has at most 63 characters all ASCII (the empty unit is always
valid); every 64-character unit fails with the length diagnostic; and a unit
whose UTF-8 byte length is at most 63 that contains a non-ASCII character
fails with the ASCII diagnostic. -/
theorem C2_unit_validation :
    (∀ unit : Option (List Char), validate_instrument_unit unit = .ok () ↔
      (unit = none ∨ ∃ s, unit = some s ∧ s.length ≤ 63 ∧ s.all isAscii = true))
  ∧ (∀ s : List Char, s.length = 64 →
      validate_instrument_unit (some s) =
        .error (.InvalidInstrumentConfiguration .INSTRUMENT_UNIT_LENGTH))
  ∧ (∀ s : List Char, utf8Len s ≤ 63 → s.any (fun c => !(isAscii c)) = true →
      validate_instrument_unit (some s) =
        .error (.InvalidInstrumentConfiguration .INSTRUMENT_UNIT_INVALID_CHAR)) := by
  refine ⟨?_, ?_, ?_⟩
  · intro unit
    cases unit with
    | none => simp [validate_instrument_unit]
    | some u =>
      rw [validate_unit_some_ok_iff]
      constructor
      · rintro ⟨h1, h2⟩
        right
        refine ⟨u, rfl, le_trans (length_le_utf8Len u) h1, List.all_eq_true.mpr h2⟩
      · rintro (h | ⟨s, hs, hlen, hall⟩)
        · cases h
        · cases hs
          have hall2 : ∀ c ∈ u, isAscii c = true := List.all_eq_true.mp hall
          refine ⟨?_, hall2⟩
          rw [utf8Len_eq_length u (fun c hc => toNat_lt_of_isAscii c (hall2 c hc))]
          exact hlen
  · intro s hlen
    apply validate_unit_too_long
    have := length_le_utf8Len s
    simp only [INSTRUMENT_UNIT_NAME_MAX_LENGTH]
    omega
  · intro s h1 h2
    exact validate_unit_non_ascii s
      (by simp only [INSTRUMENT_UNIT_NAME_MAX_LENGTH]; omega) h2

/-- Witness for C2 (amended): concrete units for each case. -/
theorem C2_unit_validation_witness :
    validate_instrument_unit (some ['K', 'b', '/', 's']) = .ok ()
  ∧ validate_instrument_unit (some (List.replicate 64 'x')) =
      .error (.InvalidInstrumentConfiguration .INSTRUMENT_UNIT_LENGTH)
  ∧ validate_instrument_unit (some ['m', Char.ofNat 0x4E2D]) =
      .error (.InvalidInstrumentConfiguration .INSTRUMENT_UNIT_INVALID_CHAR) :=
  ⟨(C2_unit_validation.1 (some ['K', 'b', '/', 's'])).mpr
      (Or.inr ⟨['K', 'b', '/', 's'], rfl, by decide, by decide⟩),
   C2_unit_validation.2.1 _ (by decide),
   C2_unit_validation.2.2 _ (by decide) (by decide)⟩

/-- C9: the name and unit length checks compare UTF-8 byte length, not
character count: a name of at most 255 characters whose encoding exceeds
255 bytes is rejected with the name-length diagnostic, and a unit of at
most 63 characters whose encoding exceeds 63 bytes is rejected with the
unit-length diagnostic, before any per-character ASCII check. -/
theorem C9_byte_length_checks :
    (∀ name : List Char, name.length ≤ 255 → utf8Len name > 255 →
      validate_instrument_name name =
        .error (.InvalidInstrumentConfiguration .INSTRUMENT_NAME_LENGTH))
  ∧ (∀ u : List Char, u.length ≤ 63 → utf8Len u > 63 →
      validate_instrument_unit (some u) =
        .error (.InvalidInstrumentConfiguration .INSTRUMENT_UNIT_LENGTH)) := by
  constructor
  · intro name h1 h2
    have hne : name ≠ [] := by
      intro h
      subst h
      simp [utf8Len] at h2
    exact validate_name_too_long name hne
      (by simp only [INSTRUMENT_NAME_MAX_LENGTH]; omega)
  · intro u h1 h2
    exact validate_unit_too_long u
      (by simp only [INSTRUMENT_UNIT_NAME_MAX_LENGTH]; omega)

/-- Witness for C9: 128 two-byte characters (256 bytes) as a name, and 33
two-byte characters (66 bytes) as a unit. -/
theorem C9_byte_length_checks_witness :
    validate_instrument_name (List.replicate 128 (Char.ofNat 0x100)) =
      .error (.InvalidInstrumentConfiguration .INSTRUMENT_NAME_LENGTH)
  ∧ validate_instrument_unit (some (List.replicate 33 (Char.ofNat 0x100))) =
      .error (.InvalidInstrumentConfiguration .INSTRUMENT_UNIT_LENGTH) :=
  ⟨C9_byte_length_checks.1 _ (by decide) (by decide),
   C9_byte_length_checks.2 _ (by decide) (by decide)⟩

/-- C10: name validation runs before unit validation: when the name is
invalid, the chained validation yields the name's diagnostic whatever the
unit is (and validate_instrument_config returns or reports exactly that
diagnostic under each policy); the unit is only consulted when the name
passes all four name rules. -/
theorem C10_name_checked_first :
    (∀ (name : List Char) (unit : Option (List Char)) (e : MetricsError),
      validate_instrument_name name = .error e →
      validate_combined name unit = .error e)
  ∧ (∀ (name : List Char) (unit : Option (List Char)),
      validate_instrument_name name = .ok () →
      validate_combined name unit = validate_instrument_unit unit)
  ∧ (∀ (name : List Char) (unit : Option (List Char)) (e : MetricsError),
      validate_instrument_name name = .error e →
      validate_instrument_config name unit .Strict = ⟨.error e, []⟩ ∧
      validate_instrument_config name unit .HandleGlobalAndIgnore = ⟨.ok (), [e]⟩) := by
  refine ⟨validate_combined_error_name, validate_combined_ok_name, ?_⟩
  intro name unit e h
  have hc := validate_combined_error_name name unit e h
  exact ⟨config_strict_invalid name unit e hc, config_handle_invalid name unit e hc⟩

/-- Witness for C10: a name failing the first-character rule combined with a
unit failing the ASCII rule produces the name's diagnostic. -/
theorem C10_name_checked_first_witness :
    validate_combined ['_', 'a'] (some ['m', Char.ofNat 0x4E2D]) =
      .error (.InvalidInstrumentConfiguration .INSTRUMENT_NAME_FIRST_ALPHABETIC)
  ∧ validate_combined ['o', 'k'] (some ['m', Char.ofNat 0x4E2D]) =
      validate_instrument_unit (some ['m', Char.ofNat 0x4E2D])
  ∧ validate_instrument_config ['_', 'a'] (some ['m', Char.ofNat 0x4E2D]) .Strict =
      ⟨.error (.InvalidInstrumentConfiguration .INSTRUMENT_NAME_FIRST_ALPHABETIC), []⟩ :=
  ⟨C10_name_checked_first.1 _ _ _ (by decide),
   C10_name_checked_first.2.1 _ _ (by decide),
   (C10_name_checked_first.2.2 _ _ _ (by decide)).1⟩

/-- C4: under the strict policy, an instrument-creation call with an invalid
name or unit returns the validation error to the caller; no instrument is
created, no descriptor is handed to the resolver, no callback is registered,
and nothing is reported to the error handler. -/
theorem C4_strict_rejects :
    ∀ (σu σi σf Cb : Type) (m : SdkMeter σu σi σf),
      m.validation_policy = .Strict →
      ∀ (name : List Char) (description unit : Option (List Char))
        (callbacks : List Cb) (e : MetricsError),
        validate_combined name unit = .error e →
        m.u64_counter name description unit = ⟨.error e, [], []⟩
      ∧ m.f64_counter name description unit = ⟨.error e, [], []⟩
      ∧ m.u64_observable_counter name description unit callbacks = ⟨.error e, [], [], []⟩
      ∧ m.f64_observable_counter name description unit callbacks = ⟨.error e, [], [], []⟩
      ∧ m.i64_up_down_counter name description unit = ⟨.error e, [], []⟩
      ∧ m.f64_up_down_counter name description unit = ⟨.error e, [], []⟩
      ∧ m.i64_observable_up_down_counter name description unit callbacks = ⟨.error e, [], [], []⟩
      ∧ m.f64_observable_up_down_counter name description unit callbacks = ⟨.error e, [], [], []⟩
      ∧ m.u64_gauge name description unit = ⟨.error e, [], []⟩
      ∧ m.f64_gauge name description unit = ⟨.error e, [], []⟩
      ∧ m.i64_gauge name description unit = ⟨.error e, [], []⟩
      ∧ m.u64_observable_gauge name description unit callbacks = ⟨.error e, [], [], []⟩
      ∧ m.i64_observable_gauge name description unit callbacks = ⟨.error e, [], [], []⟩
      ∧ m.f64_observable_gauge name description unit callbacks = ⟨.error e, [], [], []⟩
      ∧ m.f64_histogram name description unit = ⟨.error e, [], []⟩
      ∧ m.u64_histogram name description unit = ⟨.error e, [], []⟩ := by
  intro σu σi σf Cb m hp name description unit callbacks e hv
  have hcfg : validate_instrument_config name unit m.validation_policy = ⟨.error e, []⟩ := by
    rw [hp]
    exact config_strict_invalid name unit e hv
  refine ⟨?_, ?_, ?_, ?_, ?_, ?_, ?_, ?_, ?_, ?_, ?_, ?_, ?_, ?_, ?_, ?_⟩ <;>
    simp [SdkMeter.u64_counter, SdkMeter.f64_counter, SdkMeter.u64_observable_counter,
      SdkMeter.f64_observable_counter, SdkMeter.i64_up_down_counter,
      SdkMeter.f64_up_down_counter, SdkMeter.i64_observable_up_down_counter,
      SdkMeter.f64_observable_up_down_counter, SdkMeter.u64_gauge, SdkMeter.f64_gauge,
      SdkMeter.i64_gauge, SdkMeter.u64_observable_gauge, SdkMeter.i64_observable_gauge,
      SdkMeter.f64_observable_gauge, SdkMeter.f64_histogram, SdkMeter.u64_histogram, hcfg]

/-- Witness for C4: the strict test meter rejects an invalid name on a
synchronous and on an observable creation call, consulting nothing. -/
theorem C4_strict_rejects_witness :
    testMeterStrict.u64_counter ['_', 'a'] none none =
      ⟨.error (.InvalidInstrumentConfiguration .INSTRUMENT_NAME_FIRST_ALPHABETIC), [], []⟩
  ∧ testMeterStrict.f64_observable_gauge ['_', 'a'] none none [0] =
      ⟨.error (.InvalidInstrumentConfiguration .INSTRUMENT_NAME_FIRST_ALPHABETIC), [], [], []⟩ :=
  ⟨(C4_strict_rejects Nat Nat Nat Nat testMeterStrict rfl ['_', 'a'] none none [0]
      (.InvalidInstrumentConfiguration .INSTRUMENT_NAME_FIRST_ALPHABETIC) (by decide)).1,
   (C4_strict_rejects Nat Nat Nat Nat testMeterStrict rfl ['_', 'a'] none none [0]
      (.InvalidInstrumentConfiguration .INSTRUMENT_NAME_FIRST_ALPHABETIC)
      (by decide)).2.2.2.2.2.2.2.2.2.2.2.2.2.1⟩

/-- C6: for every synchronous-instrument creation call, when validation
passes and the resolver returns a sink list for the built descriptor, the
call returns Ok with a handle wrapping exactly that sink list, with no
special case for an empty list. -/
theorem C6_sync_creation :
    ∀ (σu σi σf : Type) (m : SdkMeter σu σi σf)
      (name : List Char) (description unit : Option (List Char)),
      (validate_instrument_config name unit m.validation_policy).result = .ok () →
      (∀ sinks : List σu,
        (InstrumentResolver.measures m.scope m.u64_resolver .Counter
          name description unit).1 = .ok sinks →
        (m.u64_counter name description unit).result = .ok ⟨⟨sinks⟩⟩)
    ∧
      (∀ sinks : List σf,
        (InstrumentResolver.measures m.scope m.f64_resolver .Counter
          name description unit).1 = .ok sinks →
        (m.f64_counter name description unit).result = .ok ⟨⟨sinks⟩⟩)
    ∧
      (∀ sinks : List σi,
        (InstrumentResolver.measures m.scope m.i64_resolver .UpDownCounter
          name description unit).1 = .ok sinks →
        (m.i64_up_down_counter name description unit).result = .ok ⟨⟨sinks⟩⟩)
    ∧
      (∀ sinks : List σf,
        (InstrumentResolver.measures m.scope m.f64_resolver .UpDownCounter
          name description unit).1 = .ok sinks →
        (m.f64_up_down_counter name description unit).result = .ok ⟨⟨sinks⟩⟩)
    ∧
      (∀ sinks : List σu,
        (InstrumentResolver.measures m.scope m.u64_resolver .Gauge
          name description unit).1 = .ok sinks →
        (m.u64_gauge name description unit).result = .ok ⟨⟨sinks⟩⟩)
    ∧
      (∀ sinks : List σf,
        (InstrumentResolver.measures m.scope m.f64_resolver .Gauge
          name description unit).1 = .ok sinks →
        (m.f64_gauge name description unit).result = .ok ⟨⟨sinks⟩⟩)
    ∧
      (∀ sinks : List σi,
        (InstrumentResolver.measures m.scope m.i64_resolver .Gauge
          name description unit).1 = .ok sinks →
        (m.i64_gauge name description unit).result = .ok ⟨⟨sinks⟩⟩)
    ∧
      (∀ sinks : List σf,
        (InstrumentResolver.measures m.scope m.f64_resolver .Histogram
          name description unit).1 = .ok sinks →
        (m.f64_histogram name description unit).result = .ok ⟨⟨sinks⟩⟩)
    ∧
      (∀ sinks : List σu,
        (InstrumentResolver.measures m.scope m.u64_resolver .Histogram
          name description unit).1 = .ok sinks →
        (m.u64_histogram name description unit).result = .ok ⟨⟨sinks⟩⟩) := by
  intro σu σi σf m name description unit hv
  exact ⟨fun sinks hm => u64_counter_spec m name description unit sinks hv hm,
   fun sinks hm => f64_counter_spec m name description unit sinks hv hm,
   fun sinks hm => i64_up_down_counter_spec m name description unit sinks hv hm,
   fun sinks hm => f64_up_down_counter_spec m name description unit sinks hv hm,
   fun sinks hm => u64_gauge_spec m name description unit sinks hv hm,
   fun sinks hm => f64_gauge_spec m name description unit sinks hv hm,
   fun sinks hm => i64_gauge_spec m name description unit sinks hv hm,
   fun sinks hm => f64_histogram_spec m name description unit sinks hv hm,
   fun sinks hm => u64_histogram_spec m name description unit sinks hv hm⟩

/-- Witness for C6: the test meter wraps the one-sink list, and the
empty-sink meter still returns a handle wrapping the empty list. -/
theorem C6_sync_creation_witness :
    (testMeterHandle.u64_counter ['o', 'k'] none none).result = .ok ⟨⟨[7]⟩⟩
  ∧ (testMeterEmptySinks.u64_counter ['o', 'k'] none none).result = .ok ⟨⟨[]⟩⟩
  ∧ (testMeterHandle.f64_histogram ['o', 'k'] none none).result = .ok ⟨⟨[9]⟩⟩ :=
  ⟨(C6_sync_creation Nat Nat Nat testMeterHandle ['o', 'k'] none none (by decide)).1 [7] rfl,
   (C6_sync_creation Nat Nat Nat testMeterEmptySinks ['o', 'k'] none none (by decide)).1 [] rfl,
   (C6_sync_creation Nat Nat Nat testMeterHandle
      ['o', 'k'] none none (by decide)).2.2.2.2.2.2.2.1 [9] rfl⟩

/-- C5: for every observable-instrument creation call, if the resolver
returns an empty sink list the returned handle is a no-op observable
instrument and zero callbacks are registered with the collection scheduler;
if the sink list is non-empty, exactly one scheduler closure is registered
per supplied user callback, each binding the user callback to the shared
observable instrument built from that sink list. -/
theorem C5_observable_creation :
    ∀ (σu σi σf Cb : Type) (m : SdkMeter σu σi σf)
      (name : List Char) (description unit : Option (List Char)) (callbacks : List Cb),
      (validate_instrument_config name unit m.validation_policy).result = .ok () →
      (∀ ms : List σu,
        (InstrumentResolver.measures m.scope m.u64_resolver .ObservableCounter
          name description unit).1 = .ok ms →
        (ms = [] →
          (m.u64_observable_counter name description unit callbacks).result = .ok ⟨.noop⟩ ∧
          (m.u64_observable_counter name description unit callbacks).registered = []) ∧
        (ms ≠ [] →
          (m.u64_observable_counter name description unit callbacks).result =
            .ok ⟨.observable ⟨ms⟩⟩ ∧
          (m.u64_observable_counter name description unit callbacks).registered =
            callbacks.map (fun callback => (callback, (⟨ms⟩ : Observable σu)))))
    ∧
      (∀ ms : List σf,
        (InstrumentResolver.measures m.scope m.f64_resolver .ObservableCounter
          name description unit).1 = .ok ms →
        (ms = [] →
          (m.f64_observable_counter name description unit callbacks).result = .ok ⟨.noop⟩ ∧
          (m.f64_observable_counter name description unit callbacks).registered = []) ∧
        (ms ≠ [] →
          (m.f64_observable_counter name description unit callbacks).result =
            .ok ⟨.observable ⟨ms⟩⟩ ∧
          (m.f64_observable_counter name description unit callbacks).registered =
            callbacks.map (fun callback => (callback, (⟨ms⟩ : Observable σf)))))
    ∧
      (∀ ms : List σi,
        (InstrumentResolver.measures m.scope m.i64_resolver .ObservableUpDownCounter
          name description unit).1 = .ok ms →
        (ms = [] →
          (m.i64_observable_up_down_counter name description unit callbacks).result = .ok ⟨.noop⟩ ∧
          (m.i64_observable_up_down_counter name description unit callbacks).registered = []) ∧
        (ms ≠ [] →
          (m.i64_observable_up_down_counter name description unit callbacks).result =
            .ok ⟨.observable ⟨ms⟩⟩ ∧
          (m.i64_observable_up_down_counter name description unit callbacks).registered =
            callbacks.map (fun callback => (callback, (⟨ms⟩ : Observable σi)))))
    ∧
      (∀ ms : List σf,
        (InstrumentResolver.measures m.scope m.f64_resolver .ObservableUpDownCounter
          name description unit).1 = .ok ms →
        (ms = [] →
          (m.f64_observable_up_down_counter name description unit callbacks).result = .ok ⟨.noop⟩ ∧
          (m.f64_observable_up_down_counter name description unit callbacks).registered = []) ∧
        (ms ≠ [] →
          (m.f64_observable_up_down_counter name description unit callbacks).result =
            .ok ⟨.observable ⟨ms⟩⟩ ∧
          (m.f64_observable_up_down_counter name description unit callbacks).registered =
            callbacks.map (fun callback => (callback, (⟨ms⟩ : Observable σf)))))
    ∧
      (∀ ms : List σu,
        (InstrumentResolver.measures m.scope m.u64_resolver .ObservableGauge
          name description unit).1 = .ok ms →
        (ms = [] →
          (m.u64_observable_gauge name description unit callbacks).result = .ok ⟨.noop⟩ ∧
          (m.u64_observable_gauge name description unit callbacks).registered = []) ∧
        (ms ≠ [] →
          (m.u64_observable_gauge name description unit callbacks).result =
            .ok ⟨.observable ⟨ms⟩⟩ ∧
          (m.u64_observable_gauge name description unit callbacks).registered =
            callbacks.map (fun callback => (callback, (⟨ms⟩ : Observable σu)))))
    ∧
      (∀ ms : List σi,
        (InstrumentResolver.measures m.scope m.i64_resolver .ObservableGauge
          name description unit).1 = .ok ms →
        (ms = [] →
          (m.i64_observable_gauge name description unit callbacks).result = .ok ⟨.noop⟩ ∧
          (m.i64_observable_gauge name description unit callbacks).registered = []) ∧
        (ms ≠ [] →
          (m.i64_observable_gauge name description unit callbacks).result =
            .ok ⟨.observable ⟨ms⟩⟩ ∧
          (m.i64_observable_gauge name description unit callbacks).registered =
            callbacks.map (fun callback => (callback, (⟨ms⟩ : Observable σi)))))
    ∧
      (∀ ms : List σf,
        (InstrumentResolver.measures m.scope m.f64_resolver .ObservableGauge
          name description unit).1 = .ok ms →
        (ms = [] →
          (m.f64_observable_gauge name description unit callbacks).result = .ok ⟨.noop⟩ ∧
          (m.f64_observable_gauge name description unit callbacks).registered = []) ∧
        (ms ≠ [] →
          (m.f64_observable_gauge name description unit callbacks).result =
            .ok ⟨.observable ⟨ms⟩⟩ ∧
          (m.f64_observable_gauge name description unit callbacks).registered =
            callbacks.map (fun callback => (callback, (⟨ms⟩ : Observable σf))))) := by
  intro σu σi σf Cb m name description unit callbacks hv
  refine ⟨?_, ?_, ?_, ?_, ?_, ?_, ?_⟩
  · intro ms hm
    have hs := u64_observable_counter_spec m name description unit callbacks ms hv hm
    constructor
    · intro he
      subst he
      simpa using hs
    · intro he
      have he2 : ms.isEmpty = false := by
        cases ms with
        | nil => cases he rfl
        | cons a t => rfl
      simpa [he2] using hs
  · intro ms hm
    have hs := f64_observable_counter_spec m name description unit callbacks ms hv hm
    constructor
    · intro he
      subst he
      simpa using hs
    · intro he
      have he2 : ms.isEmpty = false := by
        cases ms with
        | nil => cases he rfl
        | cons a t => rfl
      simpa [he2] using hs
  · intro ms hm
    have hs := i64_observable_up_down_counter_spec m name description unit callbacks ms hv hm
    constructor
    · intro he
      subst he
      simpa using hs
    · intro he
      have he2 : ms.isEmpty = false := by
        cases ms with
        | nil => cases he rfl
        | cons a t => rfl
      simpa [he2] using hs
  · intro ms hm
    have hs := f64_observable_up_down_counter_spec m name description unit callbacks ms hv hm
    constructor
    · intro he
      subst he
      simpa using hs
    · intro he
      have he2 : ms.isEmpty = false := by
        cases ms with
        | nil => cases he rfl
        | cons a t => rfl
      simpa [he2] using hs
  · intro ms hm
    have hs := u64_observable_gauge_spec m name description unit callbacks ms hv hm
    constructor
    · intro he
      subst he
      simpa using hs
    · intro he
      have he2 : ms.isEmpty = false := by
        cases ms with
        | nil => cases he rfl
        | cons a t => rfl
      simpa [he2] using hs
  · intro ms hm
    have hs := i64_observable_gauge_spec m name description unit callbacks ms hv hm
    constructor
    · intro he
      subst he
      simpa using hs
    · intro he
      have he2 : ms.isEmpty = false := by
        cases ms with
        | nil => cases he rfl
        | cons a t => rfl
      simpa [he2] using hs
  · intro ms hm
    have hs := f64_observable_gauge_spec m name description unit callbacks ms hv hm
    constructor
    · intro he
      subst he
      simpa using hs
    · intro he
      have he2 : ms.isEmpty = false := by
        cases ms with
        | nil => cases he rfl
        | cons a t => rfl
      simpa [he2] using hs

/-- Witness for C5: the empty-sink meter produces a no-op observable
counter registering nothing; the one-sink meter produces an observable
counter sharing the sink list with one registered closure per callback. -/
theorem C5_observable_creation_witness :
    ((testMeterEmptySinks.u64_observable_counter ['o', 'k'] none none [5]).result = .ok ⟨.noop⟩
  ∧ (testMeterEmptySinks.u64_observable_counter ['o', 'k'] none none [5]).registered = [])
  ∧ ((testMeterHandle.u64_observable_counter ['o', 'k'] none none [5]).result =
      .ok ⟨.observable ⟨[7]⟩⟩
  ∧ (testMeterHandle.u64_observable_counter ['o', 'k'] none none [5]).registered =
      [(5, (⟨[7]⟩ : Observable Nat))]) :=
  ⟨((C5_observable_creation Nat Nat Nat Nat testMeterEmptySinks
      ['o', 'k'] none none [5] (by decide)).1 [] rfl).1 rfl,
   by
     have h := ((C5_observable_creation Nat Nat Nat Nat testMeterHandle
       ['o', 'k'] none none [5] (by decide)).1 [7] rfl).2 (by decide)
     simpa using h⟩

/-- C3: under the report-and-continue (default) policy,
validate_instrument_config returns Ok for every input; on an invalid
configuration it hands the validation error to the process-wide error
handler exactly once before proceeding; and every instrument-creation call
(invalid name or unit included) still returns Ok with an instrument handle
whenever the resolvers produce sink lists. -/
theorem C3_report_and_continue :
    (∀ (name : List Char) (unit : Option (List Char)),
      (validate_instrument_config name unit .HandleGlobalAndIgnore).result = .ok ())
  ∧ (∀ (name : List Char) (unit : Option (List Char)) (e : MetricsError),
      validate_combined name unit = .error e →
      (validate_instrument_config name unit .HandleGlobalAndIgnore).reported = [e])
  ∧ (∀ (name : List Char) (unit : Option (List Char)),
      validate_combined name unit = .ok () →
      (validate_instrument_config name unit .HandleGlobalAndIgnore).reported = [])
  ∧ (∀ (σu σi σf Cb : Type) (m : SdkMeter σu σi σf),
      m.validation_policy = .HandleGlobalAndIgnore →
      (∀ i, ∃ l, m.u64_resolver i = .ok l) →
      (∀ i, ∃ l, m.i64_resolver i = .ok l) →
      (∀ i, ∃ l, m.f64_resolver i = .ok l) →
      ∀ (name : List Char) (description unit : Option (List Char)) (callbacks : List Cb),
        (∃ h, (m.u64_counter name description unit).result = .ok h)
      ∧
        (∃ h, (m.f64_counter name description unit).result = .ok h)
      ∧
        (∃ h, (m.u64_observable_counter name description unit callbacks).result = .ok h)
      ∧
        (∃ h, (m.f64_observable_counter name description unit callbacks).result = .ok h)
      ∧
        (∃ h, (m.i64_up_down_counter name description unit).result = .ok h)
      ∧
        (∃ h, (m.f64_up_down_counter name description unit).result = .ok h)
      ∧
        (∃ h, (m.i64_observable_up_down_counter name description unit callbacks).result = .ok h)
      ∧
        (∃ h, (m.f64_observable_up_down_counter name description unit callbacks).result = .ok h)
      ∧
        (∃ h, (m.u64_gauge name description unit).result = .ok h)
      ∧
        (∃ h, (m.f64_gauge name description unit).result = .ok h)
      ∧
        (∃ h, (m.i64_gauge name description unit).result = .ok h)
      ∧
        (∃ h, (m.u64_observable_gauge name description unit callbacks).result = .ok h)
      ∧
        (∃ h, (m.i64_observable_gauge name description unit callbacks).result = .ok h)
      ∧
        (∃ h, (m.f64_observable_gauge name description unit callbacks).result = .ok h)
      ∧
        (∃ h, (m.f64_histogram name description unit).result = .ok h)
      ∧
        (∃ h, (m.u64_histogram name description unit).result = .ok h)) := by
  refine ⟨config_handle_result, ?_, ?_, ?_⟩
  · intro name unit e h
    rw [config_handle_invalid name unit e h]
  · intro name unit h
    rw [config_of_valid name unit .HandleGlobalAndIgnore h]
  · intro σu σi σf Cb m hp hu hi hf name description unit callbacks
    have hv : (validate_instrument_config name unit m.validation_policy).result = .ok () := by
      rw [hp]
      exact config_handle_result name unit
    have hmu : ∀ kind, ∃ l, (InstrumentResolver.measures m.scope m.u64_resolver kind
        name description unit).1 = .ok l := fun kind => hu _
    have hmi : ∀ kind, ∃ l, (InstrumentResolver.measures m.scope m.i64_resolver kind
        name description unit).1 = .ok l := fun kind => hi _
    have hmf : ∀ kind, ∃ l, (InstrumentResolver.measures m.scope m.f64_resolver kind
        name description unit).1 = .ok l := fun kind => hf _
    obtain ⟨l_u64_counter, hm_u64_counter⟩ := hmu .Counter
    obtain ⟨l_f64_counter, hm_f64_counter⟩ := hmf .Counter
    obtain ⟨l_u64_observable_counter, hm_u64_observable_counter⟩ := hmu .ObservableCounter
    obtain ⟨l_f64_observable_counter, hm_f64_observable_counter⟩ := hmf .ObservableCounter
    obtain ⟨l_i64_up_down_counter, hm_i64_up_down_counter⟩ := hmi .UpDownCounter
    obtain ⟨l_f64_up_down_counter, hm_f64_up_down_counter⟩ := hmf .UpDownCounter
    obtain ⟨l_i64_observable_up_down_counter, hm_i64_observable_up_down_counter⟩ := hmi .ObservableUpDownCounter
    obtain ⟨l_f64_observable_up_down_counter, hm_f64_observable_up_down_counter⟩ := hmf .ObservableUpDownCounter
    obtain ⟨l_u64_gauge, hm_u64_gauge⟩ := hmu .Gauge
    obtain ⟨l_f64_gauge, hm_f64_gauge⟩ := hmf .Gauge
    obtain ⟨l_i64_gauge, hm_i64_gauge⟩ := hmi .Gauge
    obtain ⟨l_u64_observable_gauge, hm_u64_observable_gauge⟩ := hmu .ObservableGauge
    obtain ⟨l_i64_observable_gauge, hm_i64_observable_gauge⟩ := hmi .ObservableGauge
    obtain ⟨l_f64_observable_gauge, hm_f64_observable_gauge⟩ := hmf .ObservableGauge
    obtain ⟨l_f64_histogram, hm_f64_histogram⟩ := hmf .Histogram
    obtain ⟨l_u64_histogram, hm_u64_histogram⟩ := hmu .Histogram
    exact
    ⟨⟨_, u64_counter_spec m name description unit l_u64_counter hv hm_u64_counter⟩,
     ⟨_, f64_counter_spec m name description unit l_f64_counter hv hm_f64_counter⟩,
     ⟨_, (u64_observable_counter_spec m name description unit callbacks l_u64_observable_counter hv hm_u64_observable_counter).1⟩,
     ⟨_, (f64_observable_counter_spec m name description unit callbacks l_f64_observable_counter hv hm_f64_observable_counter).1⟩,
     ⟨_, i64_up_down_counter_spec m name description unit l_i64_up_down_counter hv hm_i64_up_down_counter⟩,
     ⟨_, f64_up_down_counter_spec m name description unit l_f64_up_down_counter hv hm_f64_up_down_counter⟩,
     ⟨_, (i64_observable_up_down_counter_spec m name description unit callbacks l_i64_observable_up_down_counter hv hm_i64_observable_up_down_counter).1⟩,
     ⟨_, (f64_observable_up_down_counter_spec m name description unit callbacks l_f64_observable_up_down_counter hv hm_f64_observable_up_down_counter).1⟩,
     ⟨_, u64_gauge_spec m name description unit l_u64_gauge hv hm_u64_gauge⟩,
     ⟨_, f64_gauge_spec m name description unit l_f64_gauge hv hm_f64_gauge⟩,
     ⟨_, i64_gauge_spec m name description unit l_i64_gauge hv hm_i64_gauge⟩,
     ⟨_, (u64_observable_gauge_spec m name description unit callbacks l_u64_observable_gauge hv hm_u64_observable_gauge).1⟩,
     ⟨_, (i64_observable_gauge_spec m name description unit callbacks l_i64_observable_gauge hv hm_i64_observable_gauge).1⟩,
     ⟨_, (f64_observable_gauge_spec m name description unit callbacks l_f64_observable_gauge hv hm_f64_observable_gauge).1⟩,
     ⟨_, f64_histogram_spec m name description unit l_f64_histogram hv hm_f64_histogram⟩,
     ⟨_, u64_histogram_spec m name description unit l_u64_histogram hv hm_u64_histogram⟩⟩

/-- Witness for C3: a name starting with an underscore still yields an
instrument under the default policy, and the diagnostic is reported exactly
once. -/
theorem C3_report_and_continue_witness :
    (validate_instrument_config ['_', 'a'] none .HandleGlobalAndIgnore).result = .ok ()
  ∧ (validate_instrument_config ['_', 'a'] none .HandleGlobalAndIgnore).reported =
      [.InvalidInstrumentConfiguration .INSTRUMENT_NAME_FIRST_ALPHABETIC]
  ∧ (∃ h, (testMeterHandle.u64_counter ['_', 'a'] none none).result = .ok h) :=
  ⟨C3_report_and_continue.1 ['_', 'a'] none,
   C3_report_and_continue.2.1 ['_', 'a'] none _ (by decide),
   (C3_report_and_continue.2.2.2 Nat Nat Nat Nat testMeterHandle rfl
      (fun i => ⟨[7], rfl⟩) (fun i => ⟨[8], rfl⟩) (fun i => ⟨[9], rfl⟩)
      ['_', 'a'] none none []).1⟩

/-- C7: SdkMeter::new constructs exactly one view-matching cache (the fresh
index advances by one) and hands that same cache to the three per-type
resolvers of the meter. -/
theorem C7_shared_view_cache :
    ∀ (scope : Scope) (pipes fresh : Nat),
      (SharedCache.SdkMeter.new scope pipes fresh).1.u64_resolver.cache =
        (SharedCache.SdkMeter.new scope pipes fresh).1.i64_resolver.cache
    ∧ (SharedCache.SdkMeter.new scope pipes fresh).1.i64_resolver.cache =
        (SharedCache.SdkMeter.new scope pipes fresh).1.f64_resolver.cache
    ∧ (SharedCache.SdkMeter.new scope pipes fresh).2 = fresh + 1 := by
  intro s p n
  exact ⟨rfl, rfl, rfl⟩

/-- C8: converting a lock PoisonError into the log SDK error type yields the
Other (catch-all) variant carrying the poison error's string representation;
it is never the MutexPoisoned variant and never a crash. -/
theorem C8_poison_error_to_other :
    ∀ (T : Type) (err : Logs.PoisonError T),
      Logs.LogError.from_poison err = .Other (err.to_string)
      ∧ ∀ s : String, Logs.LogError.from_poison err ≠ .MutexPoisoned s := by
  intro T err
  refine ⟨rfl, fun s h => ?_⟩
  exact Logs.LogError.noConfusion h

end OtelSdk
